import Mathlib

/-!
Shallow embedding of the PrintSphere pricing engine and order-number
allocation protocol.

Pricing functions are translated from `client/src/lib` pricing utilities
(`calculateDocumentPrintingPrice`, `calculateTarpaulinPrintingPrice`,
`calculateLaminationPrice`); order storage is translated from
`server/storage.ts` (`MemStorage.createOrder`, `MemStorage.createOrderItem`,
`DatabaseStorage.createOrder`) and the `POST /api/orders` route handler in
`server/routes.ts`.

JavaScript numbers are modelled as `Option ℚ`, with `none` standing for
`NaN`; the truthiness-based coercions of the source
(`x && !isNaN(Number(x)) ? Number(x) : d`) become `jsNumOr`.
-/

namespace PrintSphere

/-- Value stored in a `breakdown: Record<string, any>` object. -/
inductive JsVal where
  | num (q : ℚ)
  | str (s : String)
deriving DecidableEq

/-- JavaScript number; `none` models `NaN` (and a missing numeric field). -/
abbrev JSNum := Option ℚ

/-- Embedding of `x && !isNaN(Number(x)) ? Number(x) : d`: `NaN` and `0`
are falsy, so both fall back to the default `d`. -/
def jsNumOr (x : JSNum) (d : ℚ) : ℚ :=
  match x with
  | none => d
  | some q => if q = 0 then d else q

/-- `DocumentPrintingParams` from the pricing module. -/
structure DocumentPrintingParams where
  paperSize : String
  paperType : String
  copies : JSNum
  colorMode : String

/-- `TarpaulinPrintingParams` from the pricing module. -/
structure TarpaulinPrintingParams where
  width : JSNum
  height : JSNum
  eyelets : JSNum
  rope : Bool
  stand : Bool

/-- `LaminationParams` from the pricing module. -/
structure LaminationParams where
  size : String
  quantity : JSNum

/-- The optional `documentAnalysis` argument of document pricing. -/
structure DocumentAnalysis where
  pageCount : JSNum
  colorPages : JSNum
  bwPages : JSNum

/-- The `document` branch of the pricing rules: a rate per colored page, a
rate per black page, and a per-page surcharge table keyed by paper type
(modelled as a partial map, `none` = key absent from the JS object). -/
structure DocumentRules where
  colorPageRate : ℚ
  blackPageRate : ℚ
  paperTypes : String → Option ℚ
  basePrice : ℚ

/-- The `tarpaulin` branch of the pricing rules. -/
structure TarpaulinRules where
  basePrice : ℚ
  eyelets : ℚ
  rope : ℚ
  stand : ℚ

/-- The `lamination` branch of the pricing rules: size-multiplier table and
base price per piece. -/
structure LaminationRules where
  sizes : String → Option ℚ
  basePrice : ℚ

/-- Return type `{ unitPrice, total, breakdown }` of all three calculators. -/
structure PriceResult where
  unitPrice : ℚ
  total : ℚ
  breakdown : List (String × JsVal)
deriving DecidableEq

/-- The `document` part of `defaultPricingRules`. -/
def defaultDocumentRules : DocumentRules where
  colorPageRate := 2
  blackPageRate := 1
  paperTypes := fun t =>
    if t = "Standard" then some 0
    else if t = "Glossy" then some 1
    else if t = "Matte" then some (3/2)
    else if t = "High Quality" then some 2
    else none
  basePrice := 8

/-- The `tarpaulin` part of `defaultPricingRules`. -/
def defaultTarpaulinRules : TarpaulinRules where
  basePrice := 25
  eyelets := 10
  rope := 50
  stand := 200

/-- The `lamination` part of `defaultPricingRules`. -/
def defaultLaminationRules : LaminationRules where
  sizes := fun s =>
    if s = "ID Size" then some 1
    else if s = "Big ID" then some (3/2)
    else if s = "A4" then some (5/2)
    else if s = "Long" then some 2
    else if s = "A5" then some (9/5)
    else none
  basePrice := 25

/-- Embedding of the paper-type surcharge lookup
`paperType && rules.paperTypes[paperType] !== undefined
  ? rules.paperTypes[paperType] : 0.0`
(the empty string is the only falsy string). -/
def paperTypeRateOf (rules : DocumentRules) (paperType : String) : ℚ :=
  if paperType ≠ "" ∧ (rules.paperTypes paperType).isSome
  then (rules.paperTypes paperType).getD 0 else 0

/-- The `Auto Detect`-with-analysis branch of
`calculateDocumentPrintingPrice`; `colorBase`/`blackBase` are
`rules.colorPageRate`/`rules.blackPageRate` and `paperTypeRate` the
surcharge already looked up. -/
def docAutoDetectResult (colorBase blackBase paperTypeRate copiesCount : ℚ)
    (analysis : DocumentAnalysis) : PriceResult :=
  let colorPages := jsNumOr analysis.colorPages 0
  let bwPages := jsNumOr analysis.bwPages 0
  let totalPages := colorPages + bwPages
  let colorPageRate := colorBase + paperTypeRate
  let blackPageRate := blackBase + paperTypeRate
  let colorPagesTotal := colorPages * colorPageRate
  let bwPagesTotal := bwPages * blackPageRate
  let totalPerCopy := colorPagesTotal + bwPagesTotal
  let total := totalPerCopy * copiesCount
  let unitPrice := if 0 < totalPages then totalPerCopy / totalPages else 0
  { unitPrice := unitPrice
    total := total
    breakdown :=
      [("colorPages", .num colorPages), ("bwPages", .num bwPages),
       ("totalPages", .num totalPages), ("colorPageRate", .num colorPageRate),
       ("blackPageRate", .num blackPageRate),
       ("colorPagesTotal", .num colorPagesTotal),
       ("bwPagesTotal", .num bwPagesTotal),
       ("totalPerCopy", .num totalPerCopy),
       ("copies", .num copiesCount)] }

/-- The explicit-mode / no-analysis branch of
`calculateDocumentPrintingPrice`. -/
def docStandardResult (colorBase blackBase paperTypeRate copiesCount : ℚ)
    (colorMode : String) : PriceResult :=
  let baseRate :=
    if colorMode = "Color" then colorBase
    else if colorMode = "Black & White" then blackBase
    else (colorBase + blackBase) / 2
  let pageRate := baseRate + paperTypeRate
  let totalPerCopy := pageRate
  let total := totalPerCopy * copiesCount
  { unitPrice := pageRate
    total := total
    breakdown :=
      [("baseRate", .num baseRate), ("paperTypeRate", .num paperTypeRate),
       ("pageRate", .num pageRate), ("copies", .num copiesCount)] }

/-- Embedding of `calculateDocumentPrintingPrice(params, rules,
documentAnalysis)`; `params = none` models a null/undefined params object. -/
def calculateDocumentPrintingPrice (params : Option DocumentPrintingParams)
    (rules : DocumentRules) (documentAnalysis : Option DocumentAnalysis) :
    PriceResult :=
  match params with
  | none => { unitPrice := 0, total := 0, breakdown := [] }
  | some p =>
    let copiesCount := jsNumOr p.copies 1
    let paperTypeRate := paperTypeRateOf rules p.paperType
    if p.colorMode = "Auto Detect" then
      match documentAnalysis with
      | some analysis =>
        docAutoDetectResult rules.colorPageRate rules.blackPageRate
          paperTypeRate copiesCount analysis
      | none =>
        docStandardResult rules.colorPageRate rules.blackPageRate
          paperTypeRate copiesCount p.colorMode
    else
      docStandardResult rules.colorPageRate rules.blackPageRate
        paperTypeRate copiesCount p.colorMode

/-- Embedding of `calculateTarpaulinPrintingPrice(params, rules)`. -/
def calculateTarpaulinPrintingPrice (params : Option TarpaulinPrintingParams)
    (rules : TarpaulinRules) : PriceResult :=
  match params with
  | none => { unitPrice := 0, total := 0, breakdown := [] }
  | some p =>
    let safeWidth := jsNumOr p.width 0
    let safeHeight := jsNumOr p.height 0
    let area := safeWidth * safeHeight
    let baseCost := area * rules.basePrice
    let safeEyelets := jsNumOr p.eyelets 0
    let eyeletCost := safeEyelets * rules.eyelets
    let ropeCost := if p.rope then rules.rope else 0
    let standCost := if p.stand then rules.stand else 0
    let total := baseCost + eyeletCost + ropeCost + standCost
    { unitPrice := baseCost
      total := total
      breakdown :=
        [("dimensions",
          .str (toString safeWidth ++ " × " ++ toString safeHeight ++ " ft")),
         ("area", .num area), ("baseCost", .num baseCost),
         ("eyeletCost", .num eyeletCost), ("eyelets", .num safeEyelets),
         ("ropeCost", .num ropeCost), ("standCost", .num standCost)] }

/-- Embedding of the size-multiplier lookup of `calculateLaminationPrice`
(fallback multiplier is `1.0`). -/
def sizeMultiplierOf (rules : LaminationRules) (size : String) : ℚ :=
  if size ≠ "" ∧ (rules.sizes size).isSome
  then (rules.sizes size).getD 0 else 1

/-- Embedding of `calculateLaminationPrice(params, rules)`. -/
def calculateLaminationPrice (params : Option LaminationParams)
    (rules : LaminationRules) : PriceResult :=
  match params with
  | none => { unitPrice := 0, total := 0, breakdown := [] }
  | some p =>
    let sizeMultiplier := sizeMultiplierOf rules p.size
    let safeQuantity := jsNumOr p.quantity 1
    let unitPrice := rules.basePrice * sizeMultiplier
    let total := unitPrice * safeQuantity
    { unitPrice := unitPrice
      total := total
      breakdown :=
        [("basePrice", .num rules.basePrice),
         ("sizeMultiplier", .num sizeMultiplier),
         ("quantity", .num safeQuantity)] }

/-- Standard (fixed-price) service total, from `StandardServiceForm.tsx`:
`totalPrice = selectedService.basePrice * quantity`. -/
def standardServiceTotal (basePrice quantity : ℚ) : ℚ :=
  basePrice * quantity

/-! ### Order storage (`server/storage.ts`) -/

/-- Calendar date, the part of a JS `Date` that order numbering and the
same-day filter (`toDateString()` comparison) observe. -/
structure CalDate where
  year : Nat
  month : Nat
  day : Nat
deriving DecidableEq

/-- Embedding of `String.prototype.padStart(n, c)`. -/
def padStart (s : String) (n : Nat) (c : Char) : String :=
  String.mk (List.replicate (n - s.length) c) ++ s

/-- Embedding of `str.substr(-2)`: the last two characters (the whole
string when it is shorter). -/
def lastTwoChars (s : String) : String :=
  s.drop (s.length - 2)

/-- The `YYMMDD` date string built in `createOrder`:
last two digits of the year, zero-padded month and day. -/
def dateStringOf (d : CalDate) : String :=
  lastTwoChars (toString d.year) ++ padStart (toString d.month) 2 '0' ++
    padStart (toString d.day) 2 '0'

/-- Candidate order number `ORD-<dateString>-<seq padded to 4>`. -/
def ordCandidate (dateString : String) (seq : Nat) : String :=
  "ORD-" ++ dateString ++ "-" ++ padStart (toString seq) 4 '0'

/-- The 3-digit random suffix
`Math.floor(Math.random() * 1000).toString().padStart(3, '0')`, with the
random draw supplied as a natural number. -/
def randomSuffix3 (random : Nat) : String :=
  padStart (toString (random % 1000)) 3 '0'

/-- Persisted order row; only the fields the modelled operations read are
kept (id, order number, total, creator, creation date). -/
structure Order where
  id : Nat
  orderNumber : String
  total : ℚ
  createdBy : Nat
  createdAt : CalDate
deriving DecidableEq

/-- Payload accepted by `createOrder` (`insertOrderSchema` shape);
`orderNumber = none` models an absent/undefined order number. -/
structure InsertOrder where
  orderNumber : Option String
  total : ℚ
  createdBy : Nat

/-- Persisted order line item. -/
structure OrderItem where
  id : Nat
  orderId : Nat
  serviceId : Nat
  quantity : Int
  unitPrice : ℚ
  amount : ℚ
deriving DecidableEq

/-- Payload accepted by `createOrderItem` (`insertOrderItemSchema` shape). -/
structure InsertOrderItem where
  orderId : Nat
  serviceId : Nat
  quantity : Int
  unitPrice : ℚ
  amount : ℚ

/-- State of `MemStorage` relevant to orders: the orders map (values in
insertion order), the order-items map, the `orderNumbers` set (as the list
of added elements) and the two id counters. -/
structure MemStorage where
  orders : List Order
  orderItems : List OrderItem
  orderNumbers : List String
  orderCurrentId : Nat
  orderItemCurrentId : Nat

/-- MemStorage as built by the constructor (the seed data contains no
orders; all counters start at 1). -/
def emptyMemStorage : MemStorage where
  orders := []
  orderItems := []
  orderNumbers := []
  orderCurrentId := 1
  orderItemCurrentId := 1

/-- Count of orders whose `createdAt` falls on the given calendar day
(the `toDateString()` equality filter in `createOrder`). -/
def countOrdersToday (s : MemStorage) (today : CalDate) : Nat :=
  (s.orders.filter (fun o => decide (o.createdAt = today))).length

/-- Embedding of `MemStorage.createOrder`.  A provided order number is kept
unless it is falsy (absent or empty) or already present in `orderNumbers`;
otherwise the sequential candidate `ORD-YYMMDD-NNNN` is built from today's
order count, and if that candidate is already present a single 3-digit
random suffix is appended (with no further existence check).  The chosen
number is always added and the order always persisted; the function has no
failure outcome. -/
def MemStorage.createOrder (s : MemStorage) (insertOrder : InsertOrder)
    (now : CalDate) (random : Nat) : MemStorage × Order :=
  let id := s.orderCurrentId
  let provided := insertOrder.orderNumber.getD ""
  let orderNumber :=
    if provided = "" ∨ provided ∈ s.orderNumbers then
      let dateString := dateStringOf now
      let todayOrders := countOrdersToday s now
      let candidate := ordCandidate dateString (todayOrders + 1)
      if candidate ∈ s.orderNumbers then
        candidate ++ "-" ++ randomSuffix3 random
      else candidate
    else provided
  let order : Order :=
    { id := id, orderNumber := orderNumber, total := insertOrder.total,
      createdBy := insertOrder.createdBy, createdAt := now }
  ({ s with
      orders := s.orders ++ [order],
      orderNumbers := s.orderNumbers ++ [orderNumber],
      orderCurrentId := id + 1 },
    order)

/-- Embedding of `MemStorage.createOrderItem`. -/
def MemStorage.createOrderItem (s : MemStorage) (it : InsertOrderItem) :
    MemStorage × OrderItem :=
  let id := s.orderItemCurrentId
  let orderItem : OrderItem :=
    { id := id, orderId := it.orderId, serviceId := it.serviceId,
      quantity := it.quantity, unitPrice := it.unitPrice,
      amount := it.amount }
  ({ s with
      orderItems := s.orderItems ++ [orderItem],
      orderItemCurrentId := id + 1 },
    orderItem)

/-- Embedding of `MemStorage.getOrderItems`: items whose `orderId` matches. -/
def MemStorage.getOrderItems (s : MemStorage) (orderId : Nat) :
    List OrderItem :=
  s.orderItems.filter (fun it => decide (it.orderId = orderId))

/-- State of the SQL `orders` table used by `DatabaseStorage`. -/
structure DbState where
  rows : List Order

/-- Embedding of `DatabaseStorage.createOrder`: when the payload has no
order number, the sequential candidate is built from the count of
today's rows (there is no existence check, no suffix and no retry);
the insert then either succeeds or fails on the `order_number` unique
constraint, the violation surfacing as an error. -/
def dbCreateOrder (db : DbState) (insertOrder : InsertOrder)
    (now : CalDate) : Except String (DbState × Order) :=
  let provided := insertOrder.orderNumber.getD ""
  let orderNumber :=
    if provided = "" then
      ordCandidate (dateStringOf now)
        ((db.rows.filter (fun o => decide (o.createdAt = now))).length + 1)
    else provided
  if orderNumber ∈ db.rows.map (fun o => o.orderNumber) then
    .error "duplicate key value violates unique constraint on order_number"
  else
    let order : Order :=
      { id := db.rows.length + 1, orderNumber := orderNumber,
        total := insertOrder.total, createdBy := insertOrder.createdBy,
        createdAt := now }
    .ok ({ rows := db.rows ++ [order] }, order)

/-! ### The `POST /api/orders` route handler (`server/routes.ts`) -/

/-- Raw order item as it arrives in the request body; `none` fields model
values that `insertOrderItemSchema.parse` rejects (absent / wrong type). -/
structure RawOrderItem where
  serviceId : Option Nat
  quantity : Option Int
  unitPrice : Option ℚ
  amount : Option ℚ

/-- Embedding of `item.orderId = order.id` followed by
`insertOrderItemSchema.parse(item)`: every remaining required field must
be present, otherwise the parse throws (a `ZodError`). -/
def parseInsertOrderItem (orderId : Nat) (raw : RawOrderItem) :
    Except String InsertOrderItem :=
  match raw.serviceId, raw.quantity, raw.unitPrice, raw.amount with
  | some sid, some q, some up, some am =>
    .ok { orderId := orderId, serviceId := sid, quantity := q,
          unitPrice := up, amount := am }
  | _, _, _, _ => .error "invalid order item payload"

/-- The item-creation loop of the handler: items are validated and
persisted one at a time; the first parse failure aborts the loop,
keeping every storage write made so far. -/
def createOrderItemsLoop (orderId : Nat) :
    MemStorage → List RawOrderItem → List OrderItem →
    MemStorage × Except String (List OrderItem)
  | s, [], acc => (s, .ok acc.reverse)
  | s, raw :: rest, acc =>
    match parseInsertOrderItem orderId raw with
    | .error e => (s, .error e)
    | .ok v =>
      let r := s.createOrderItem v
      createOrderItemsLoop orderId r.1 rest (r.2 :: acc)

/-- Response of the `POST /api/orders` handler. -/
inductive RouteResponse where
  | created (order : Order) (items : List OrderItem)
  | clientError (status : Nat) (message : String)
deriving DecidableEq

/-- Embedding of the `POST /api/orders` handler: the order row is created
first, then the items; a thrown validation error is caught and answered
with an error response, with no rollback of the storage writes already
performed. -/
def postOrdersHandler (s : MemStorage) (orderData : InsertOrder)
    (items : List RawOrderItem) (now : CalDate) (random : Nat) :
    MemStorage × RouteResponse :=
  let r1 := s.createOrder orderData now random
  let r2 := createOrderItemsLoop r1.2.id r1.1 items []
  match r2.2 with
  | .ok its => (r2.1, .created r1.2 its)
  | .error m => (r2.1, .clientError 400 m)

/-! ### Derived notions used by the verification -/

/-- A document rule set with no negative rate or surcharge. -/
def DocumentRules.Nonneg (r : DocumentRules) : Prop :=
  0 ≤ r.colorPageRate ∧ 0 ≤ r.blackPageRate ∧
    ∀ t q, r.paperTypes t = some q → 0 ≤ q

/-- A lamination rule set with no negative base price or multiplier. -/
def LaminationRules.Nonneg (r : LaminationRules) : Prop :=
  0 ≤ r.basePrice ∧ ∀ s m, r.sizes s = some m → 0 ≤ m

/-- A page analysis whose (coerced) page counts are nonnegative. -/
def DocumentAnalysis.NonnegPages (a : DocumentAnalysis) : Prop :=
  0 ≤ jsNumOr a.colorPages 0 ∧ 0 ≤ jsNumOr a.bwPages 0

/-- The per-copy amount of document pricing, as a function of everything
except the copy count (the factor the calculator multiplies by the
number of copies). -/
def docTotalPerCopy (rules : DocumentRules) (paperType colorMode : String)
    (an : Option DocumentAnalysis) : ℚ :=
  let ptr := paperTypeRateOf rules paperType
  let stdRate :=
    (if colorMode = "Color" then rules.colorPageRate
     else if colorMode = "Black & White" then rules.blackPageRate
     else (rules.colorPageRate + rules.blackPageRate) / 2) + ptr
  match an with
  | some a =>
    if colorMode = "Auto Detect" then
      jsNumOr a.colorPages 0 * (rules.colorPageRate + ptr) +
        jsNumOr a.bwPages 0 * (rules.blackPageRate + ptr)
    else stdRate
  | none => stdRate

/-! ### Concrete scenarios -/

/-- A store with two orders whose (caller-provided) numbers occupy both the
sequential candidate for 2025-01-01 and its `-042`-suffixed variant: first
call of the collision scenario. -/
def collisionSeedCall1 : MemStorage × Order :=
  emptyMemStorage.createOrder
    { orderNumber := some "ORD-250101-0001", total := 100, createdBy := 1 }
    ⟨2024, 12, 31⟩ 0

/-- Second call of the collision scenario. -/
def collisionSeedCall2 : MemStorage × Order :=
  collisionSeedCall1.1.createOrder
    { orderNumber := some "ORD-250101-0001-042", total := 120, createdBy := 1 }
    ⟨2024, 12, 31⟩ 0

/-- Third call of the collision scenario: no order number supplied, on
2025-01-01, with random draw 42 — both the sequential candidate and its
suffixed fallback already exist in the store. -/
def doubleCollisionCall : MemStorage × Order :=
  collisionSeedCall2.1.createOrder
    { orderNumber := none, total := 80, createdBy := 1 } ⟨2025, 1, 1⟩ 42

/-- A store holding three orders created on 2025-01-01, all with generated
numbers. -/
def threePriorOrdersStore : MemStorage :=
  (((emptyMemStorage.createOrder
          { orderNumber := none, total := 50, createdBy := 1 }
          ⟨2025, 1, 1⟩ 0).1.createOrder
        { orderNumber := none, total := 60, createdBy := 1 }
        ⟨2025, 1, 1⟩ 0).1.createOrder
      { orderNumber := none, total := 70, createdBy := 1 }
      ⟨2025, 1, 1⟩ 0).1

/-- The rule set of the spec's auto-detect example:
`colorPageRate=2, blackPageRate=1, paperTypes={Glossy:1}`. -/
def autoDetectExampleRules : DocumentRules where
  colorPageRate := 2
  blackPageRate := 1
  paperTypes := fun t => if t = "Glossy" then some 1 else none
  basePrice := 8

/-- A document rule set whose paper-type table is empty. -/
def emptyPaperTypeRules : DocumentRules where
  colorPageRate := 2
  blackPageRate := 1
  paperTypes := fun _ => none
  basePrice := 8

/-- A lamination rule set whose size table is empty. -/
def emptySizeRules : LaminationRules where
  sizes := fun _ => none
  basePrice := 25

/-! ## Helper lemmas -/

theorem jsNumOr_some_zero (q : ℚ) : jsNumOr (some q) 0 = q := by
  by_cases h : q = 0 <;> simp [jsNumOr, h]

theorem jsNumOr_some_of_ne {q : ℚ} (d : ℚ) (h : q ≠ 0) :
    jsNumOr (some q) d = q := by
  simp [jsNumOr, h]

theorem paperTypeRateOf_eq_zero {rules : DocumentRules} {t : String}
    (h : rules.paperTypes t = none) : paperTypeRateOf rules t = 0 := by
  simp [paperTypeRateOf, h]

theorem paperTypeRateOf_nonneg {rules : DocumentRules} (t : String)
    (h : ∀ t q, rules.paperTypes t = some q → 0 ≤ q) :
    0 ≤ paperTypeRateOf rules t := by
  unfold paperTypeRateOf
  split_ifs with hc
  · obtain ⟨q, hq⟩ := Option.isSome_iff_exists.mp hc.2
    simpa [hq] using h t q hq
  · exact le_refl 0

theorem sizeMultiplierOf_nonneg {rules : LaminationRules} (t : String)
    (h : ∀ s m, rules.sizes s = some m → 0 ≤ m) :
    0 ≤ sizeMultiplierOf rules t := by
  unfold sizeMultiplierOf
  split_ifs with hc
  · obtain ⟨m, hm⟩ := Option.isSome_iff_exists.mp hc.2
    simpa [hm] using h t m hm
  · exact zero_le_one

/-! ## Claim C10 -/

/-- C10: every price calculator is total on malformed input — a null
params object yields `{unitPrice := 0, total := 0, breakdown := []}` from
each of the three calculators, and `NaN` fields are silently coerced:
`copies` and `quantity` behave exactly as the value `1`, while `width`,
`height` and `eyelets` behave exactly as the value `0`; no input makes the
(total) calculators raise. -/
theorem c10_calculators_total_on_malformed_input :
    (∀ (rules : DocumentRules) (an : Option DocumentAnalysis),
      calculateDocumentPrintingPrice none rules an
        = { unitPrice := 0, total := 0, breakdown := [] }) ∧
    (∀ rules : TarpaulinRules,
      calculateTarpaulinPrintingPrice none rules
        = { unitPrice := 0, total := 0, breakdown := [] }) ∧
    (∀ rules : LaminationRules,
      calculateLaminationPrice none rules
        = { unitPrice := 0, total := 0, breakdown := [] }) ∧
    (∀ (rules : DocumentRules) (ps pt cm : String)
      (an : Option DocumentAnalysis),
      calculateDocumentPrintingPrice (some ⟨ps, pt, none, cm⟩) rules an
        = calculateDocumentPrintingPrice (some ⟨ps, pt, some 1, cm⟩) rules an) ∧
    (∀ (rules : LaminationRules) (sz : String),
      calculateLaminationPrice (some ⟨sz, none⟩) rules
        = calculateLaminationPrice (some ⟨sz, some 1⟩) rules) ∧
    (∀ (rules : TarpaulinRules) (h e : JSNum) (ro st : Bool),
      calculateTarpaulinPrintingPrice (some ⟨none, h, e, ro, st⟩) rules
        = calculateTarpaulinPrintingPrice (some ⟨some 0, h, e, ro, st⟩) rules) ∧
    (∀ (rules : TarpaulinRules) (w e : JSNum) (ro st : Bool),
      calculateTarpaulinPrintingPrice (some ⟨w, none, e, ro, st⟩) rules
        = calculateTarpaulinPrintingPrice (some ⟨w, some 0, e, ro, st⟩) rules) ∧
    (∀ (rules : TarpaulinRules) (w h : JSNum) (ro st : Bool),
      calculateTarpaulinPrintingPrice (some ⟨w, h, none, ro, st⟩) rules
        = calculateTarpaulinPrintingPrice (some ⟨w, h, some 0, ro, st⟩) rules) := by
  refine ⟨fun _ _ => rfl, fun _ => rfl, fun _ => rfl, ?_, ?_, ?_, ?_, ?_⟩
  · intro rules ps pt cm an
    simp [calculateDocumentPrintingPrice, jsNumOr]
  · intro rules sz
    simp [calculateLaminationPrice, jsNumOr]
  · intro rules h e ro st
    simp [calculateTarpaulinPrintingPrice, jsNumOr]
  · intro rules w e ro st
    simp [calculateTarpaulinPrintingPrice, jsNumOr]
  · intro rules w h ro st
    simp [calculateTarpaulinPrintingPrice, jsNumOr]

/-! ## Claim C4 -/

/-- C4 counterexample: the claim says nonpositive dimensions, negative
eyelet counts and nonpositive copies/quantity produce an
`InvalidSpecification` error; instead each calculator silently coerces and
returns a numeric price: width 0 is priced from the add-ons alone
(total 110), a negative width flows through producing total −190, a
lamination quantity of 0 is priced as one piece (total 25), and zero
copies are priced as one copy (total 2). -/
theorem c4_counterexample :
    (calculateTarpaulinPrintingPrice
        (some ⟨some 0, some 4, some 6, true, false⟩)
        defaultTarpaulinRules).total = 110 ∧
    (calculateTarpaulinPrintingPrice
        (some ⟨some (-3), some 4, some 6, true, false⟩)
        defaultTarpaulinRules).total = -190 ∧
    (calculateLaminationPrice (some ⟨"ID Size", some 0⟩)
        defaultLaminationRules).total = 25 ∧
    (calculateDocumentPrintingPrice
        (some ⟨"A4", "Standard", some 0, "Color"⟩)
        defaultDocumentRules none).total = 2 := by
  refine ⟨?_, ?_, ?_, ?_⟩
  · simp [calculateTarpaulinPrintingPrice, jsNumOr, defaultTarpaulinRules]
    norm_num
  · simp [calculateTarpaulinPrintingPrice, jsNumOr, defaultTarpaulinRules]
    norm_num
  · simp [calculateLaminationPrice, sizeMultiplierOf, jsNumOr,
      defaultLaminationRules]
  · simp [calculateDocumentPrintingPrice, docStandardResult,
      paperTypeRateOf, jsNumOr, defaultDocumentRules]

/-- C4 as amended: the calculators never signal an error; the tarpaulin
total is always computed by the pricing formula with falsy fields coerced
(so width/height 0 or NaN are silently clamped and a price is still
returned), a negative width yields a negative unit price rather than an
error, and zero copies or zero quantity are silently priced as 1. -/
theorem c4_amended_silent_coercion :
    (∀ (rules : TarpaulinRules) (w h e : ℚ) (ro st : Bool),
      (calculateTarpaulinPrintingPrice
          (some ⟨some w, some h, some e, ro, st⟩) rules).total
        = w * h * rules.basePrice + e * rules.eyelets +
            (if ro then rules.rope else 0) +
            (if st then rules.stand else 0)) ∧
    (∀ (rules : TarpaulinRules) (w h e : ℚ) (ro st : Bool),
      w < 0 → 0 < h → 0 < rules.basePrice →
      (calculateTarpaulinPrintingPrice
          (some ⟨some w, some h, some e, ro, st⟩) rules).unitPrice < 0) ∧
    (∀ (rules : DocumentRules) (ps pt cm : String)
      (an : Option DocumentAnalysis),
      calculateDocumentPrintingPrice (some ⟨ps, pt, some 0, cm⟩) rules an
        = calculateDocumentPrintingPrice (some ⟨ps, pt, some 1, cm⟩) rules an) ∧
    (∀ (rules : LaminationRules) (sz : String),
      calculateLaminationPrice (some ⟨sz, some 0⟩) rules
        = calculateLaminationPrice (some ⟨sz, some 1⟩) rules) := by
  refine ⟨?_, ?_, ?_, ?_⟩
  · intro rules w h e ro st
    simp [calculateTarpaulinPrintingPrice, jsNumOr_some_zero]
  · intro rules w h e ro st hw hh hb
    have hwz : jsNumOr (some w) 0 = w := jsNumOr_some_zero w
    have hhz : jsNumOr (some h) 0 = h := jsNumOr_some_zero h
    simp only [calculateTarpaulinPrintingPrice, hwz, hhz]
    have : w * h < 0 := mul_neg_of_neg_of_pos hw hh
    exact mul_neg_of_neg_of_pos this hb
  · intro rules ps pt cm an
    simp [calculateDocumentPrintingPrice, jsNumOr]
  · intro rules sz
    simp [calculateLaminationPrice, jsNumOr]

/-- C4 amended, witness: the negative-width conjunct applied at
width −3, height 4 under the default rules. -/
theorem c4_amended_witness :
    (-3 : ℚ) < 0 ∧ (0 : ℚ) < 4 ∧ (0 : ℚ) < defaultTarpaulinRules.basePrice ∧
    (calculateTarpaulinPrintingPrice
        (some ⟨some (-3), some 4, some 6, true, false⟩)
        defaultTarpaulinRules).unitPrice < 0 :=
  ⟨by norm_num, by norm_num, by norm_num [defaultTarpaulinRules],
    c4_amended_silent_coercion.2.1 defaultTarpaulinRules (-3) 4 6 true false
      (by norm_num) (by norm_num) (by norm_num [defaultTarpaulinRules])⟩

/-! ## Claim C5 -/

/-- C5: in `Auto Detect` mode with a page analysis present, the document
total is `(colorPages·(colorPageRate+surcharge) +
bwPages·(blackPageRate+surcharge)) · copies` and the unit price is the
per-copy total divided by `max(totalPages, 1)` where
`totalPages = colorPages + bwPages`. -/
theorem c5_auto_detect_pricing (rules : DocumentRules) (ps pt : String)
    (copies cp bw pc : ℚ) (hcopies : 1 ≤ copies) (hcp : 0 ≤ cp)
    (hbw : 0 ≤ bw) (hpages : cp + bw = 0 ∨ 1 ≤ cp + bw) :
    (calculateDocumentPrintingPrice
        (some ⟨ps, pt, some copies, "Auto Detect"⟩) rules
        (some ⟨some pc, some cp, some bw⟩)).total
      = (cp * (rules.colorPageRate + paperTypeRateOf rules pt) +
          bw * (rules.blackPageRate + paperTypeRateOf rules pt)) * copies ∧
    (calculateDocumentPrintingPrice
        (some ⟨ps, pt, some copies, "Auto Detect"⟩) rules
        (some ⟨some pc, some cp, some bw⟩)).unitPrice
      = (cp * (rules.colorPageRate + paperTypeRateOf rules pt) +
          bw * (rules.blackPageRate + paperTypeRateOf rules pt)) /
          max (cp + bw) 1 := by
  have hc0 : copies ≠ 0 := by
    intro h
    rw [h] at hcopies
    exact absurd hcopies (by norm_num)
  constructor
  · simp [calculateDocumentPrintingPrice, docAutoDetectResult,
      jsNumOr_some_zero, jsNumOr_some_of_ne _ hc0]
  · rcases hpages with h0 | h1
    · have hcp0 : cp = 0 := by linarith
      have hbw0 : bw = 0 := by linarith
      simp [calculateDocumentPrintingPrice, docAutoDetectResult,
        jsNumOr_some_zero, jsNumOr_some_of_ne _ hc0, hcp0, hbw0]
    · have hpos : 0 < cp + bw := by linarith
      have hmax : max (cp + bw) 1 = cp + bw := max_eq_left h1
      simp [calculateDocumentPrintingPrice, docAutoDetectResult,
        jsNumOr_some_zero, jsNumOr_some_of_ne _ hc0, hmax, hpos]

/-- C5 witness: the spec's example — Glossy paper (surcharge 1), one copy,
4 color and 6 black-and-white pages under rates 2/1 — priced through the
theorem, with the concrete values total 24 and unit price 2.4 (= 12/5). -/
theorem c5_witness :
    (1 : ℚ) ≤ 1 ∧ (0 : ℚ) ≤ 4 ∧ (0 : ℚ) ≤ 6 ∧
    ((calculateDocumentPrintingPrice
        (some ⟨"A4", "Glossy", some 1, "Auto Detect"⟩) autoDetectExampleRules
        (some ⟨some 10, some 4, some 6⟩)).total
      = (4 * (autoDetectExampleRules.colorPageRate +
            paperTypeRateOf autoDetectExampleRules "Glossy") +
          6 * (autoDetectExampleRules.blackPageRate +
            paperTypeRateOf autoDetectExampleRules "Glossy")) * 1 ∧
     (calculateDocumentPrintingPrice
        (some ⟨"A4", "Glossy", some 1, "Auto Detect"⟩) autoDetectExampleRules
        (some ⟨some 10, some 4, some 6⟩)).unitPrice
      = (4 * (autoDetectExampleRules.colorPageRate +
            paperTypeRateOf autoDetectExampleRules "Glossy") +
          6 * (autoDetectExampleRules.blackPageRate +
            paperTypeRateOf autoDetectExampleRules "Glossy")) /
          max ((4 : ℚ) + 6) 1) ∧
    (calculateDocumentPrintingPrice
        (some ⟨"A4", "Glossy", some 1, "Auto Detect"⟩) autoDetectExampleRules
        (some ⟨some 10, some 4, some 6⟩)).total = 24 ∧
    (calculateDocumentPrintingPrice
        (some ⟨"A4", "Glossy", some 1, "Auto Detect"⟩) autoDetectExampleRules
        (some ⟨some 10, some 4, some 6⟩)).unitPrice = 12 / 5 :=
  ⟨le_refl 1, by norm_num, by norm_num,
    c5_auto_detect_pricing autoDetectExampleRules "A4" "Glossy" 1 4 6 10
      (le_refl 1) (by norm_num) (by norm_num) (Or.inr (by norm_num)),
    by
      simp [calculateDocumentPrintingPrice, docAutoDetectResult,
        paperTypeRateOf, jsNumOr, autoDetectExampleRules]
      norm_num,
    by
      simp [calculateDocumentPrintingPrice, docAutoDetectResult,
        paperTypeRateOf, jsNumOr, autoDetectExampleRules]
      norm_num⟩

/-! ## Claim C6 -/

/-- C6: for a valid tarpaulin specification the total is
`width·height·basePrice + eyelets·eyeletPrice + rope + stand` and the unit
price is the dimensional base cost alone. -/
theorem c6_tarpaulin_pricing (rules : TarpaulinRules) (w h e : ℚ)
    (ro st : Bool) (hw : 0 < w) (hh : 0 < h) (he : 0 ≤ e) :
    (calculateTarpaulinPrintingPrice
        (some ⟨some w, some h, some e, ro, st⟩) rules).total
      = w * h * rules.basePrice + e * rules.eyelets +
          (if ro then rules.rope else 0) +
          (if st then rules.stand else 0) ∧
    (calculateTarpaulinPrintingPrice
        (some ⟨some w, some h, some e, ro, st⟩) rules).unitPrice
      = w * h * rules.basePrice := by
  constructor <;>
    simp [calculateTarpaulinPrintingPrice, jsNumOr_some_zero]

/-- C6 witness: the spec's example — 3×4 ft, 6 eyelets, rope, no stand, at
base 25 / eyelet 10 / rope 50 — through the theorem, with the concrete
total 410 and unit price 300. -/
theorem c6_witness :
    (0 : ℚ) < 3 ∧ (0 : ℚ) < 4 ∧ (0 : ℚ) ≤ 6 ∧
    ((calculateTarpaulinPrintingPrice
        (some ⟨some 3, some 4, some 6, true, false⟩)
        defaultTarpaulinRules).total
      = 3 * 4 * defaultTarpaulinRules.basePrice +
          6 * defaultTarpaulinRules.eyelets +
          (if true then defaultTarpaulinRules.rope else 0) +
          (if false then defaultTarpaulinRules.stand else 0) ∧
     (calculateTarpaulinPrintingPrice
        (some ⟨some 3, some 4, some 6, true, false⟩)
        defaultTarpaulinRules).unitPrice
      = 3 * 4 * defaultTarpaulinRules.basePrice) ∧
    (calculateTarpaulinPrintingPrice
        (some ⟨some 3, some 4, some 6, true, false⟩)
        defaultTarpaulinRules).total = 410 :=
  ⟨by norm_num, by norm_num, by norm_num,
    c6_tarpaulin_pricing defaultTarpaulinRules 3 4 6 true false
      (by norm_num) (by norm_num) (by norm_num),
    by
      simp [calculateTarpaulinPrintingPrice, jsNumOr, defaultTarpaulinRules]
      norm_num⟩

/-! ## Claim C7 -/

/-- C7: a rule set missing a paper type (document) or size (lamination)
prices exactly as the same rule set with that key explicitly set to its
neutral value — surcharge 0 for paper types, multiplier 1 for lamination
sizes — and the missing key never causes an error. -/
theorem c7_neutral_defaults :
    (∀ (rules : DocumentRules) (p : DocumentPrintingParams)
      (an : Option DocumentAnalysis),
      rules.paperTypes p.paperType = none →
      calculateDocumentPrintingPrice (some p) rules an
        = calculateDocumentPrintingPrice (some p)
            { rules with
                paperTypes := fun t =>
                  if t = p.paperType then some 0 else rules.paperTypes t }
            an) ∧
    (∀ (rules : LaminationRules) (p : LaminationParams),
      rules.sizes p.size = none →
      calculateLaminationPrice (some p) rules
        = calculateLaminationPrice (some p)
            { rules with
                sizes := fun t =>
                  if t = p.size then some 1 else rules.sizes t }) := by
  constructor
  · intro rules p an hnone
    have h1 : paperTypeRateOf rules p.paperType = 0 :=
      paperTypeRateOf_eq_zero hnone
    have h2 : paperTypeRateOf
        { rules with
            paperTypes := fun t =>
              if t = p.paperType then some 0 else rules.paperTypes t }
        p.paperType = 0 := by
      by_cases hpt : p.paperType = "" <;> simp [paperTypeRateOf, hpt]
    simp [calculateDocumentPrintingPrice, h1, h2]
  · intro rules p hnone
    have h1 : sizeMultiplierOf rules p.size = 1 := by
      simp [sizeMultiplierOf, hnone]
    have h2 : sizeMultiplierOf
        { rules with
            sizes := fun t => if t = p.size then some 1 else rules.sizes t }
        p.size = 1 := by
      by_cases hsz : p.size = "" <;> simp [sizeMultiplierOf, hsz]
    simp [calculateLaminationPrice, h1, h2]

/-- C7 witness: both conjuncts applied to rule sets with empty tables, for
a Glossy document and an A4 lamination. -/
theorem c7_witness :
    calculateDocumentPrintingPrice
        (some ⟨"A4", "Glossy", some 2, "Color"⟩) emptyPaperTypeRules none
      = calculateDocumentPrintingPrice
          (some ⟨"A4", "Glossy", some 2, "Color"⟩)
          { emptyPaperTypeRules with
              paperTypes := fun t =>
                if t = "Glossy" then some 0
                else emptyPaperTypeRules.paperTypes t }
          none ∧
    calculateLaminationPrice (some ⟨"A4", some 3⟩) emptySizeRules
      = calculateLaminationPrice (some ⟨"A4", some 3⟩)
          { emptySizeRules with
              sizes := fun t =>
                if t = "A4" then some 1 else emptySizeRules.sizes t } :=
  ⟨c7_neutral_defaults.1 emptyPaperTypeRules
      ⟨"A4", "Glossy", some 2, "Color"⟩ none rfl,
    c7_neutral_defaults.2 emptySizeRules ⟨"A4", some 3⟩ rfl⟩

/-! ## Claim C8 -/

theorem doc_total_factor (rules : DocumentRules) (ps pt cm : String)
    (an : Option DocumentAnalysis) (c : ℚ) (hc : c ≠ 0) :
    (calculateDocumentPrintingPrice (some ⟨ps, pt, some c, cm⟩) rules an).total
      = docTotalPerCopy rules pt cm an * c := by
  by_cases hcm : cm = "Auto Detect" <;> cases an <;>
    simp [calculateDocumentPrintingPrice, docAutoDetectResult,
      docStandardResult, docTotalPerCopy, hcm, jsNumOr_some_of_ne _ hc]

theorem docTotalPerCopy_nonneg (rules : DocumentRules) (pt cm : String)
    (an : Option DocumentAnalysis) (hr : rules.Nonneg)
    (han : ∀ a, an = some a → a.NonnegPages) :
    0 ≤ docTotalPerCopy rules pt cm an := by
  obtain ⟨h1, h2, h3⟩ := hr
  have hptr := paperTypeRateOf_nonneg pt h3
  have hstd :
      0 ≤ (if cm = "Color" then rules.colorPageRate
        else if cm = "Black & White" then rules.blackPageRate
        else (rules.colorPageRate + rules.blackPageRate) / 2) +
        paperTypeRateOf rules pt := by
    split_ifs <;> linarith
  cases an with
  | none => simpa [docTotalPerCopy] using hstd
  | some a =>
    obtain ⟨hcp, hbw⟩ := han a rfl
    by_cases hcm : cm = "Auto Detect"
    · simp only [docTotalPerCopy, hcm, if_pos rfl]
      exact add_nonneg (mul_nonneg hcp (add_nonneg h1 hptr))
        (mul_nonneg hbw (add_nonneg h2 hptr))
    · simpa [docTotalPerCopy, hcm] using hstd

theorem lam_total_factor (rules : LaminationRules) (sz : String) (q : ℚ)
    (hq : q ≠ 0) :
    (calculateLaminationPrice (some ⟨sz, some q⟩) rules).total
      = rules.basePrice * sizeMultiplierOf rules sz * q := by
  simp [calculateLaminationPrice, jsNumOr_some_of_ne _ hq]

/-- C8: with nonnegative rates and valid specifications, increasing
`eyelets` or toggling `rope`/`stand` from false to true never decreases
the tarpaulin total, and increasing `copies` (document) or `quantity`
(lamination, standard) never decreases the total. -/
theorem c8_monotonicity :
    (∀ (rules : TarpaulinRules) (w h : JSNum) (e e' : ℚ) (ro st : Bool),
      0 ≤ rules.eyelets → 0 ≤ e → e ≤ e' →
      (calculateTarpaulinPrintingPrice
          (some ⟨w, h, some e, ro, st⟩) rules).total ≤
        (calculateTarpaulinPrintingPrice
          (some ⟨w, h, some e', ro, st⟩) rules).total) ∧
    (∀ (rules : TarpaulinRules) (w h e : JSNum) (st : Bool),
      0 ≤ rules.rope →
      (calculateTarpaulinPrintingPrice
          (some ⟨w, h, e, false, st⟩) rules).total ≤
        (calculateTarpaulinPrintingPrice
          (some ⟨w, h, e, true, st⟩) rules).total) ∧
    (∀ (rules : TarpaulinRules) (w h e : JSNum) (ro : Bool),
      0 ≤ rules.stand →
      (calculateTarpaulinPrintingPrice
          (some ⟨w, h, e, ro, false⟩) rules).total ≤
        (calculateTarpaulinPrintingPrice
          (some ⟨w, h, e, ro, true⟩) rules).total) ∧
    (∀ (rules : DocumentRules) (ps pt cm : String)
      (an : Option DocumentAnalysis) (c c' : ℚ),
      rules.Nonneg → (∀ a, an = some a → a.NonnegPages) →
      1 ≤ c → c ≤ c' →
      (calculateDocumentPrintingPrice
          (some ⟨ps, pt, some c, cm⟩) rules an).total ≤
        (calculateDocumentPrintingPrice
          (some ⟨ps, pt, some c', cm⟩) rules an).total) ∧
    (∀ (rules : LaminationRules) (sz : String) (q q' : ℚ),
      rules.Nonneg → 1 ≤ q → q ≤ q' →
      (calculateLaminationPrice (some ⟨sz, some q⟩) rules).total ≤
        (calculateLaminationPrice (some ⟨sz, some q'⟩) rules).total) ∧
    (∀ basePrice q q' : ℚ, 0 ≤ basePrice → q ≤ q' →
      standardServiceTotal basePrice q ≤ standardServiceTotal basePrice q') := by
  refine ⟨?_, ?_, ?_, ?_, ?_, ?_⟩
  · intro rules w h e e' ro st hre he hee
    have he' : jsNumOr (some e) 0 = e := jsNumOr_some_zero e
    have he'' : jsNumOr (some e') 0 = e' := jsNumOr_some_zero e'
    have hmul : e * rules.eyelets ≤ e' * rules.eyelets :=
      mul_le_mul_of_nonneg_right hee hre
    simp only [calculateTarpaulinPrintingPrice, he', he'']
    linarith
  · intro rules w h e st hrope
    simp only [calculateTarpaulinPrintingPrice]
    simp only [if_true, if_false, Bool.false_eq_true, ite_true, ite_false]
    linarith
  · intro rules w h e ro hstand
    simp only [calculateTarpaulinPrintingPrice]
    simp only [if_true, if_false, Bool.false_eq_true, ite_true, ite_false]
    linarith
  · intro rules ps pt cm an c c' hr han hc hcc
    have hc0 : c ≠ 0 := by intro h; rw [h] at hc; exact absurd hc (by norm_num)
    have hc0' : c' ≠ 0 := by
      intro h
      rw [h] at hcc
      exact absurd (le_trans hc hcc) (by norm_num)
    rw [doc_total_factor rules ps pt cm an c hc0,
      doc_total_factor rules ps pt cm an c' hc0']
    exact mul_le_mul_of_nonneg_left hcc
      (docTotalPerCopy_nonneg rules pt cm an hr han)
  · intro rules sz q q' hr hq hqq
    have hq0 : q ≠ 0 := by intro h; rw [h] at hq; exact absurd hq (by norm_num)
    have hq0' : q' ≠ 0 := by
      intro h
      rw [h] at hqq
      exact absurd (le_trans hq hqq) (by norm_num)
    rw [lam_total_factor rules sz q hq0, lam_total_factor rules sz q' hq0']
    exact mul_le_mul_of_nonneg_left hqq
      (mul_nonneg hr.1 (sizeMultiplierOf_nonneg sz hr.2))
  · intro basePrice q q' hb hqq
    exact mul_le_mul_of_nonneg_left hqq hb

/-- C8 witness: each monotonicity conjunct applied at a concrete
specification and rule set. -/
theorem c8_witness :
    ((calculateTarpaulinPrintingPrice
        (some ⟨some 3, some 4, some 2, true, false⟩)
        defaultTarpaulinRules).total ≤
      (calculateTarpaulinPrintingPrice
        (some ⟨some 3, some 4, some 5, true, false⟩)
        defaultTarpaulinRules).total) ∧
    ((calculateTarpaulinPrintingPrice
        (some ⟨some 3, some 4, some 2, false, false⟩)
        defaultTarpaulinRules).total ≤
      (calculateTarpaulinPrintingPrice
        (some ⟨some 3, some 4, some 2, true, false⟩)
        defaultTarpaulinRules).total) ∧
    ((calculateTarpaulinPrintingPrice
        (some ⟨some 3, some 4, some 2, true, false⟩)
        defaultTarpaulinRules).total ≤
      (calculateTarpaulinPrintingPrice
        (some ⟨some 3, some 4, some 2, true, true⟩)
        defaultTarpaulinRules).total) ∧
    ((calculateDocumentPrintingPrice
        (some ⟨"A4", "Glossy", some 2, "Color"⟩) emptyPaperTypeRules
        none).total ≤
      (calculateDocumentPrintingPrice
        (some ⟨"A4", "Glossy", some 5, "Color"⟩) emptyPaperTypeRules
        none).total) ∧
    ((calculateLaminationPrice (some ⟨"A4", some 2⟩) emptySizeRules).total ≤
      (calculateLaminationPrice (some ⟨"A4", some 7⟩) emptySizeRules).total) ∧
    standardServiceTotal 25 2 ≤ standardServiceTotal 25 7 :=
  ⟨c8_monotonicity.1 defaultTarpaulinRules (some 3) (some 4) 2 5 true false
      (by norm_num [defaultTarpaulinRules]) (by norm_num) (by norm_num),
    c8_monotonicity.2.1 defaultTarpaulinRules (some 3) (some 4) (some 2) false
      (by norm_num [defaultTarpaulinRules]),
    c8_monotonicity.2.2.1 defaultTarpaulinRules (some 3) (some 4) (some 2) true
      (by norm_num [defaultTarpaulinRules]),
    c8_monotonicity.2.2.2.1 emptyPaperTypeRules "A4" "Glossy" "Color" none 2 5
      ⟨by norm_num [emptyPaperTypeRules], by norm_num [emptyPaperTypeRules],
        by intro t q h; simp [emptyPaperTypeRules] at h⟩
      (by intro a h; exact Option.noConfusion h)
      (by norm_num) (by norm_num),
    c8_monotonicity.2.2.2.2.1 emptySizeRules "A4" 2 7
      ⟨by norm_num [emptySizeRules],
        by intro t m h; simp [emptySizeRules] at h⟩
      (by norm_num) (by norm_num),
    c8_monotonicity.2.2.2.2.2 25 2 7 (by norm_num) (by norm_num)⟩

/-! ## Claim C1 -/

/-- C1 counterexample: the claim says the allocator retries up to a
bounded number of attempts and raises `OrderNumberAllocationFailed`
rather than silently reusing a number.  Instead, in the concrete
three-call scenario, the sequential candidate for 2025-01-01 and its
`-042`-suffixed fallback both already exist in the store, and the third
`createOrder` returns successfully with the already-used number
`ORD-250101-0001-042` — the existing number is silently reused and no
failure is possible (the operation is total). -/
theorem c1_counterexample :
    doubleCollisionCall.2.orderNumber = "ORD-250101-0001-042" ∧
    "ORD-250101-0001-042" ∈ collisionSeedCall2.1.orderNumbers ∧
    doubleCollisionCall.1.orders.map (fun o => o.orderNumber)
      = ["ORD-250101-0001", "ORD-250101-0001-042",
         "ORD-250101-0001-042"] := by
  refine ⟨by decide, by decide, by decide⟩

/-- C1 as amended: on a sequential-candidate collision,
`MemStorage.createOrder` appends a single 3-digit random suffix and uses
the result with no further existence check and no failure path, and
`DatabaseStorage.createOrder` performs no collision handling at all — the
candidate is inserted as-is and a collision surfaces as the unique
constraint violation error. -/
theorem c1_amended_single_suffix_no_retry :
    (∀ (s : MemStorage) (io : InsertOrder) (now : CalDate) (random : Nat),
      (io.orderNumber.getD "" = "" ∨ io.orderNumber.getD "" ∈ s.orderNumbers) →
      ordCandidate (dateStringOf now) (countOrdersToday s now + 1)
          ∈ s.orderNumbers →
      ((s.createOrder io now random).2).orderNumber
        = ordCandidate (dateStringOf now) (countOrdersToday s now + 1) ++
            "-" ++ randomSuffix3 random) ∧
    (∀ (db : DbState) (io : InsertOrder) (now : CalDate),
      io.orderNumber.getD "" = "" →
      ordCandidate (dateStringOf now)
          ((db.rows.filter (fun o => decide (o.createdAt = now))).length + 1)
          ∈ db.rows.map (fun o => o.orderNumber) →
      dbCreateOrder db io now
        = .error
            "duplicate key value violates unique constraint on order_number") := by
  constructor
  · intro s io now random hgen hcand
    simp only [MemStorage.createOrder]
    rw [if_pos hgen, if_pos hcand]
  · intro db io now hprov hcand
    simp only [dbCreateOrder]
    rw [if_pos hprov, if_pos hcand]

/-- C1 amended, witness: both conjuncts applied to concrete colliding
stores (the double-collision scenario for `MemStorage`; a one-row table
already holding `ORD-250101-0002` for the database backend). -/
theorem c1_amended_witness :
    ordCandidate (dateStringOf ⟨2025, 1, 1⟩)
        (countOrdersToday collisionSeedCall2.1 ⟨2025, 1, 1⟩ + 1)
      ∈ collisionSeedCall2.1.orderNumbers ∧
    ((collisionSeedCall2.1.createOrder
        { orderNumber := none, total := 80, createdBy := 1 }
        ⟨2025, 1, 1⟩ 42).2).orderNumber
      = ordCandidate (dateStringOf ⟨2025, 1, 1⟩)
          (countOrdersToday collisionSeedCall2.1 ⟨2025, 1, 1⟩ + 1) ++
          "-" ++ randomSuffix3 42 ∧
    dbCreateOrder
        ⟨[{ id := 1, orderNumber := "ORD-250101-0002", total := 10,
            createdBy := 1, createdAt := ⟨2025, 1, 1⟩ }]⟩
        { orderNumber := none, total := 20, createdBy := 1 } ⟨2025, 1, 1⟩
      = .error
          "duplicate key value violates unique constraint on order_number" :=
  ⟨by decide,
    c1_amended_single_suffix_no_retry.1 collisionSeedCall2.1
      { orderNumber := none, total := 80, createdBy := 1 } ⟨2025, 1, 1⟩ 42
      (Or.inl rfl) (by decide),
    c1_amended_single_suffix_no_retry.2
      ⟨[{ id := 1, orderNumber := "ORD-250101-0002", total := 10,
          createdBy := 1, createdAt := ⟨2025, 1, 1⟩ }]⟩
      { orderNumber := none, total := 20, createdBy := 1 } ⟨2025, 1, 1⟩
      rfl (by decide)⟩

/-! ## Claim C2 -/

/-- C2 counterexample: after three `createOrder` calls on one store the
persisted order numbers are not pairwise distinct — the list of numbers
contains `ORD-250101-0001-042` twice. -/
theorem c2_counterexample :
    ¬ (doubleCollisionCall.1.orders.map (fun o => o.orderNumber)).Nodup := by
  decide

/-- C2 as amended: a single `createOrder` call persists a number that
already exists in the store only in the double-collision case — when the
sequential candidate is taken and the suffixed fallback it then uses is
also taken; in every other case the chosen number is fresh, so order
numbers stay pairwise distinct unless the one random-suffix fallback
itself collides. -/
theorem c2_amended_duplicate_only_on_double_collision :
    ∀ (s : MemStorage) (io : InsertOrder) (now : CalDate) (random : Nat),
      ((s.createOrder io now random).2).orderNumber ∈ s.orderNumbers →
      ordCandidate (dateStringOf now) (countOrdersToday s now + 1)
          ∈ s.orderNumbers ∧
      ((s.createOrder io now random).2).orderNumber
        = ordCandidate (dateStringOf now) (countOrdersToday s now + 1) ++
            "-" ++ randomSuffix3 random := by
  intro s io now random h
  simp only [MemStorage.createOrder] at h ⊢
  split_ifs at h ⊢ with h1 h2
  · exact ⟨h2, rfl⟩
  · exact absurd h h2
  · rw [not_or] at h1
    exact absurd h h1.2

/-- C2 amended, witness: the theorem applied to the double-collision
scenario, where the third call does persist a duplicate. -/
theorem c2_amended_witness :
    ((collisionSeedCall2.1.createOrder
        { orderNumber := none, total := 80, createdBy := 1 }
        ⟨2025, 1, 1⟩ 42).2).orderNumber ∈ collisionSeedCall2.1.orderNumbers ∧
    (ordCandidate (dateStringOf ⟨2025, 1, 1⟩)
        (countOrdersToday collisionSeedCall2.1 ⟨2025, 1, 1⟩ + 1)
        ∈ collisionSeedCall2.1.orderNumbers ∧
      ((collisionSeedCall2.1.createOrder
          { orderNumber := none, total := 80, createdBy := 1 }
          ⟨2025, 1, 1⟩ 42).2).orderNumber
        = ordCandidate (dateStringOf ⟨2025, 1, 1⟩)
            (countOrdersToday collisionSeedCall2.1 ⟨2025, 1, 1⟩ + 1) ++
            "-" ++ randomSuffix3 42) :=
  ⟨by decide,
    c2_amended_duplicate_only_on_double_collision collisionSeedCall2.1
      { orderNumber := none, total := 80, createdBy := 1 } ⟨2025, 1, 1⟩ 42
      (by decide)⟩

/-! ## Claim C3 -/

/-- C3 counterexample: posting an order whose single line item fails
validation answers with an error response, yet leaves the created order
row persisted with zero order items — the order row is neither rolled
back nor marked failed. -/
theorem c3_counterexample :
    (postOrdersHandler emptyMemStorage
        { orderNumber := none, total := 100, createdBy := 1 }
        [⟨none, some 1, some 5, some 5⟩] ⟨2025, 1, 1⟩ 0).2
      = .clientError 400 "invalid order item payload" ∧
    (postOrdersHandler emptyMemStorage
        { orderNumber := none, total := 100, createdBy := 1 }
        [⟨none, some 1, some 5, some 5⟩] ⟨2025, 1, 1⟩ 0).1.orders.length
      = 1 ∧
    (postOrdersHandler emptyMemStorage
        { orderNumber := none, total := 100, createdBy := 1 }
        [⟨none, some 1, some 5, some 5⟩] ⟨2025, 1, 1⟩ 0).1.orderItems
      = [] := by
  refine ⟨by decide, by decide, by decide⟩

/-- C3 as amended: when the first line item of an order-creation request
fails validation, the handler answers with an error response and performs
no rollback — the order row created before the failure stays persisted
and no order item is written. -/
theorem c3_amended_no_rollback :
    ∀ (s : MemStorage) (orderData : InsertOrder) (raw : RawOrderItem)
      (rest : List RawOrderItem) (now : CalDate) (random : Nat),
      raw.serviceId = none →
      (postOrdersHandler s orderData (raw :: rest) now random).2
        = .clientError 400 "invalid order item payload" ∧
      (postOrdersHandler s orderData (raw :: rest) now random).1.orders
        = s.orders ++ [(s.createOrder orderData now random).2] ∧
      (postOrdersHandler s orderData (raw :: rest) now random).1.orderItems
        = s.orderItems := by
  intro s orderData raw rest now random hraw
  refine ⟨?_, ?_, ?_⟩ <;>
    simp [postOrdersHandler, createOrderItemsLoop, parseInsertOrderItem,
      hraw, MemStorage.createOrder]

/-- C3 amended, witness: the theorem applied to a concrete request whose
only item lacks a service id. -/
theorem c3_amended_witness :
    (⟨none, some 1, some 5, some 5⟩ : RawOrderItem).serviceId = none ∧
    ((postOrdersHandler emptyMemStorage
        { orderNumber := none, total := 100, createdBy := 1 }
        [⟨none, some 1, some 5, some 5⟩] ⟨2025, 1, 1⟩ 0).2
      = .clientError 400 "invalid order item payload" ∧
    (postOrdersHandler emptyMemStorage
        { orderNumber := none, total := 100, createdBy := 1 }
        [⟨none, some 1, some 5, some 5⟩] ⟨2025, 1, 1⟩ 0).1.orders
      = emptyMemStorage.orders ++
          [(emptyMemStorage.createOrder
              { orderNumber := none, total := 100, createdBy := 1 }
              ⟨2025, 1, 1⟩ 0).2] ∧
    (postOrdersHandler emptyMemStorage
        { orderNumber := none, total := 100, createdBy := 1 }
        [⟨none, some 1, some 5, some 5⟩] ⟨2025, 1, 1⟩ 0).1.orderItems
      = emptyMemStorage.orderItems) :=
  ⟨rfl,
    c3_amended_no_rollback emptyMemStorage
      { orderNumber := none, total := 100, createdBy := 1 }
      ⟨none, some 1, some 5, some 5⟩ [] ⟨2025, 1, 1⟩ 0 rfl⟩

/-! ## Claim C9 -/

/-- C9: on an allocation with no collision, the chosen order number is
`"ORD-" ++ YYMMDD ++ "-" ++ (count of orders already created today + 1)`
zero-padded to 4 digits, in both storage backends. -/
theorem c9_candidate_format :
    (∀ (s : MemStorage) (io : InsertOrder) (now : CalDate) (random : Nat),
      (io.orderNumber.getD "" = "" ∨ io.orderNumber.getD "" ∈ s.orderNumbers) →
      ordCandidate (dateStringOf now) (countOrdersToday s now + 1)
          ∉ s.orderNumbers →
      ((s.createOrder io now random).2).orderNumber
        = "ORD-" ++ dateStringOf now ++ "-" ++
            padStart (toString (countOrdersToday s now + 1)) 4 '0') ∧
    (∀ (db : DbState) (io : InsertOrder) (now : CalDate),
      io.orderNumber.getD "" = "" →
      ordCandidate (dateStringOf now)
          ((db.rows.filter (fun o => decide (o.createdAt = now))).length + 1)
          ∉ db.rows.map (fun o => o.orderNumber) →
      (dbCreateOrder db io now).map (fun r => r.2.orderNumber)
        = .ok ("ORD-" ++ dateStringOf now ++ "-" ++
            padStart
              (toString
                ((db.rows.filter
                  (fun o => decide (o.createdAt = now))).length + 1))
              4 '0')) := by
  constructor
  · intro s io now random hgen hfresh
    simp only [MemStorage.createOrder]
    rw [if_pos hgen, if_neg hfresh]
    rfl
  · intro db io now hprov hfresh
    simp only [dbCreateOrder]
    rw [if_pos hprov, if_neg hfresh]
    rfl

/-- C9 witness: on a day with three prior orders the next generated
number is `ORD-250101-0004`, through the theorem and evaluated
concretely, for both backends. -/
theorem c9_witness :
    countOrdersToday threePriorOrdersStore ⟨2025, 1, 1⟩ = 3 ∧
    ((threePriorOrdersStore.createOrder
        { orderNumber := none, total := 10, createdBy := 1 }
        ⟨2025, 1, 1⟩ 7).2).orderNumber
      = "ORD-" ++ dateStringOf ⟨2025, 1, 1⟩ ++ "-" ++
          padStart
            (toString (countOrdersToday threePriorOrdersStore ⟨2025, 1, 1⟩ + 1))
            4 '0' ∧
    ((threePriorOrdersStore.createOrder
        { orderNumber := none, total := 10, createdBy := 1 }
        ⟨2025, 1, 1⟩ 7).2).orderNumber = "ORD-250101-0004" ∧
    (dbCreateOrder ⟨threePriorOrdersStore.orders⟩
        { orderNumber := none, total := 10, createdBy := 1 }
        ⟨2025, 1, 1⟩).map (fun r => r.2.orderNumber)
      = .ok "ORD-250101-0004" :=
  ⟨by decide,
    c9_candidate_format.1 threePriorOrdersStore
      { orderNumber := none, total := 10, createdBy := 1 } ⟨2025, 1, 1⟩ 7
      (Or.inl rfl) (by decide),
    by decide,
    by rfl⟩

end PrintSphere
